import Mathlib

/-!
Shallow embedding of the ingestion/synchronization pipeline of the
air-quality-monitoring-system repository: the measurement upsert
(app/crud/openaq.py), the range query, the tiered parameter-name resolver and
the refresh worker (app/workers/schedular.py), the paginated historical
backfill driver (backfill_historical.py), the utils backfill path
(app/utils/backfill.py), and the source-client wrappers
(app/services/openqq.py, app/services/openaq.py).

Modelling conventions:
- machine timestamps live on an abstract discrete timeline `Time := Int`;
  `datetime.fromisoformat` is an environment parameter `parse : String → Option Time`
  (`none` models a raised `ValueError`, swallowed by the `except` clause);
- float measurement values are stored and copied but never computed with,
  so they are opaque integers `Val := Int`;
- `json.dumps` is modelled as the identity on an opaque payload string;
  a `""` payload stands for a falsy (empty) Python value;
- persistence-layer and network faults that the code catches are injected
  through explicit boolean oracles, mirroring the `try`/`except` structure.
-/

namespace AQ

/-- Timestamps: parsed datetime values on an abstract discrete timeline. -/
abbrev Time := Int

/-- Numeric measurement values; the pipeline stores and copies them but never
computes with them, so they are modelled as opaque integers. -/
abbrev Val := Int

/-- The value found under a timestamp-like key of an incoming record: either a
string (to be parsed) or Python `None`. -/
inductive TsIn where
  | str (s : String)
  | null
deriving Repr, DecidableEq

/-- Python truthiness of an optional string payload: `None` and `""` are falsy. -/
def truthyStr : Option String → Bool
  | none => false
  | some s => !(s == "")

/-- The `except` around `datetime.fromisoformat(ts.replace("Z", "+00:00"))` in
crud.insert_measurement: a non-string stays as-is (`None` when absent), a string
is parsed, and a parse failure becomes `None`. -/
def parseTs (parse : String → Option Time) : TsIn → Option Time
  | .str s => parse (s.replace "Z" "+00:00")
  | .null => none

/-- The expression `json.dumps(x) if x else None`: JSON serialization is modelled
as the identity on the opaque payload string, and the Python truthiness test
drops `None` and empty payloads. -/
def dumpsIfTruthy (x : Option String) : Option String :=
  if truthyStr x then x else none

/-- A row of the `measurements` table (app/models/openaq.py, class Measurement).
The surrogate autoincrement `id` column is omitted: no code path reads it. -/
structure Measurement where
  sensor_id : Int
  location_id : Option Int
  timestamp : Option Time
  value : Option Val
  parameter_name : Option String
  coordinates : Option String
  raw : Option String
deriving Repr, DecidableEq

/-- The dict argument of crud.insert_measurement. Under `dict.get`, an absent
key and a key whose value is `None` both read as `none`. -/
structure MeasurementIn where
  sensor_id : Int
  location_id : Option Int
  timestamp : TsIn
  value : Option Val
  coordinates : Option String
  parameter_name : Option String
  raw : Option String
deriving Repr, DecidableEq

/-- The SQLAlchemy lookup
`filter(Measurement.sensor_id == sensor_id, Measurement.timestamp == ts)`.
SQLAlchemy compiles `column == None` to `column IS NULL`, so a `none` timestamp
matches exactly the NULL-timestamp rows; hence plain `Option` equality. -/
def keyMatches (sid : Int) (ts : Option Time) (r : Measurement) : Bool :=
  r.sensor_id == sid && r.timestamp == ts

/-- Lookup via `.first()` followed by per-field `setattr` on the first row satisfying `p`,
or `db.add` (append) when no row matches. -/
def upsertRow (p : Measurement → Bool) (payload : Measurement) :
    List Measurement → List Measurement
  | [] => [payload]
  | r :: rest => if p r then payload :: rest else r :: upsertRow p payload rest

/-- The `payload` dict of crud.insert_measurement. -/
def insertPayload (parse : String → Option Time) (m : MeasurementIn) :
    Measurement :=
  { sensor_id := m.sensor_id
    location_id := m.location_id
    timestamp := parseTs parse m.timestamp
    value := m.value
    parameter_name := m.parameter_name
    coordinates := dumpsIfTruthy m.coordinates
    raw := dumpsIfTruthy m.raw }

/-- crud.insert_measurement: parse the timestamp, build the payload, and either
overwrite the first row with the same (sensor_id, timestamp) key or insert a new
row. Returns the new table and the written payload. -/
def insert_measurement (parse : String → Option Time) (db : List Measurement)
    (m : MeasurementIn) : List Measurement × Measurement :=
  (upsertRow (keyMatches m.sensor_id (parseTs parse m.timestamp))
    (insertPayload parse m) db, insertPayload parse m)

/-- Number of rows of the table carrying the (sensor_id, timestamp) key. -/
def countKey (db : List Measurement) (sid : Int) (ts : Option Time) : Nat :=
  db.countP (keyMatches sid ts)

/-- SQL three-valued `timestamp >= bound`: a NULL timestamp satisfies no bound. -/
def sqlGe (ts : Option Time) (b : Time) : Bool :=
  match ts with
  | none => false
  | some t => b ≤ t

/-- SQL three-valued `timestamp <= bound`: a NULL timestamp satisfies no bound. -/
def sqlLe (ts : Option Time) (b : Time) : Bool :=
  match ts with
  | none => false
  | some t => t ≤ b

/-- The `ORDER BY timestamp DESC` placement test: row `a` may precede row `b`.
PostgreSQL (the configured backend) sorts NULLS FIRST under DESC. -/
def descBefore (a b : Measurement) : Bool :=
  match a.timestamp, b.timestamp with
  | none, _ => true
  | some _, none => false
  | some x, some y => y ≤ x

/-- Insertion step of the ORDER BY model. -/
def insertDesc (r : Measurement) : List Measurement → List Measurement
  | [] => [r]
  | x :: xs => if descBefore r x then r :: x :: xs else x :: insertDesc r xs

/-- The ORDER BY timestamp DESC model: insertion sort by `descBefore`. -/
def sortDesc : List Measurement → List Measurement
  | [] => []
  | x :: xs => insertDesc x (sortDesc xs)

/-- crud.get_measurements_by_sensor: WHERE sensor_id = sid, optionally
AND timestamp >= start / AND timestamp <= end, ORDER BY timestamp DESC,
LIMIT limit. The string bounds are modelled already coerced (by the database)
to timeline values; in SQLAlchemy the filters added after `.order_by` still
land in the WHERE clause. -/
def get_measurements_by_sensor (db : List Measurement) (sensor_id : Int)
    (start : Option Time) (endB : Option Time) (limit : Nat) : List Measurement :=
  let q := db.filter (fun r => r.sensor_id == sensor_id)
  let q := match start with
    | some s => q.filter (fun r => sqlGe r.timestamp s)
    | none => q
  let q := match endB with
    | some e => q.filter (fun r => sqlLe r.timestamp e)
    | none => q
  (sortDesc q).take limit

/-! ## Parameter resolver (app/workers/schedular.py, get_sensor_parameter_name) -/

/-- A row of the `sensors` table, restricted to the fields the resolver reads. -/
structure SensorRow where
  id : Int
  parameter_name : Option String
deriving Repr, DecidableEq

/-- Outcome of openqq.fetch_sensor_detail: a raised exception, or a detail
record whose `parameter.get("name")` is the given optional string (`none` when
the key is absent or its value is `None`). -/
inductive SensorDetailResp where
  | err
  | ok (parameterName : Option String)
deriving Repr, DecidableEq

/-- The module-level `sensor_cache` dict, as an association list in which the
most recent binding for a key stands first. -/
abbrev Cache := List (Int × String)

/-- Dict lookup `sensor_id in sensor_cache` / `sensor_cache[sensor_id]`. -/
def cacheGet (c : Cache) (sid : Int) : Option String :=
  match c.find? (fun p => p.1 == sid) with
  | some p => some p.2
  | none => none

/-- Dict assignment `sensor_cache[sensor_id] = v`. -/
def cachePut (c : Cache) (sid : Int) (v : String) : Cache := (sid, v) :: c

/-- The lookup `db.query(Sensor).filter(Sensor.id == sensor_id).first()`. -/
def sensorsFind (rows : List SensorRow) (sid : Int) : Option SensorRow :=
  rows.find? (fun r => r.id == sid)

/-- Tier 3 of the resolver: `oa.fetch_sensor_detail` plus the surrounding
truthiness test on `parameter.get("name")` and the `except` clause; every
branch caches its answer. The third component counts API invocations (1). -/
def apiLookup (api : Int → SensorDetailResp) (cache : Cache) (sensor_id : Int) :
    String × Cache × Nat :=
  match api sensor_id with
  | .ok (some p) =>
    if p == "" then ("unknown", cachePut cache sensor_id "unknown", 1)
    else (p, cachePut cache sensor_id p, 1)
  | .ok none => ("unknown", cachePut cache sensor_id "unknown", 1)
  | .err => ("unknown", cachePut cache sensor_id "unknown", 1)

/-- workers/schedular.get_sensor_parameter_name: process-memory cache, then the
sensors table (`if sensor and sensor.parameter_name` — a non-empty stored name
is cached and returned), then the API. Returns the resolved name, the updated
cache, and the number of fetch_sensor_detail invocations. -/
def get_sensor_parameter_name (api : Int → SensorDetailResp)
    (rows : List SensorRow) (cache : Cache) (sensor_id : Int) :
    String × Cache × Nat :=
  match cacheGet cache sensor_id with
  | some v => (v, cache, 0)
  | none =>
    match sensorsFind rows sensor_id with
    | some row =>
      match row.parameter_name with
      | some p =>
        if p == "" then apiLookup api cache sensor_id
        else (p, cachePut cache sensor_id p, 0)
      | none => apiLookup api cache sensor_id
    | none => apiLookup api cache sensor_id

/-! ## Refresh worker (app/workers/schedular.py, refresh_latest_for_location) -/

/-- One element of the `/locations/id/latest` results list, restricted to the
fields the refresh loop reads; `rawRepr` stands opaquely for the whole result
dict, which is stored as the raw snapshot. -/
structure LatestResult where
  sensorsId : Option Int
  datetime_utc : TsIn
  value : Option Val
  coordinates : Option String
  rawRepr : String
deriving Repr, DecidableEq

/-- Outcome of the oa.fetch_location_latest call made by the refresh worker:
a raised exception (contained by the worker's outer `except`) or the results. -/
inductive FetchLatest where
  | err
  | ok (results : List LatestResult)
deriving Repr, DecidableEq

/-- The measurement dict the refresh worker builds for one result. -/
def refreshMeasurementIn (location_id : Int) (sid : Int) (pname : String)
    (r : LatestResult) : MeasurementIn :=
  { sensor_id := sid
    location_id := some location_id
    timestamp := r.datetime_utc
    value := r.value
    coordinates := r.coordinates
    parameter_name := some pname
    raw := some r.rawRepr }

/-- The `for i, measurement_data in enumerate(latest_results)` loop.
`insertRaises i` injects a persistence-layer exception out of the i-th
`crud.insert_measurement` call; the per-iteration `except` catches it and the
loop continues (the resolver's cache write survives, since `sensor_cache` is a
module-level dict mutated before the raise). A result whose `sensorsId` is
absent — or `0`, which is falsy under `if not sensor_id` — is skipped.
Returns (measurements_saved, table, cache). -/
def refreshLoop (parse : String → Option Time) (api : Int → SensorDetailResp)
    (rows : List SensorRow) (location_id : Int) (insertRaises : Nat → Bool) :
    List LatestResult → Nat → List Measurement → Cache →
    Nat × List Measurement × Cache
  | [], _, db, cache => (0, db, cache)
  | r :: rest, i, db, cache =>
    match r.sensorsId with
    | none => refreshLoop parse api rows location_id insertRaises rest (i + 1) db cache
    | some sid =>
      if sid == 0 then
        refreshLoop parse api rows location_id insertRaises rest (i + 1) db cache
      else
        let res := get_sensor_parameter_name api rows cache sid
        if insertRaises i then
          refreshLoop parse api rows location_id insertRaises rest (i + 1) db res.2.1
        else
          let ins := insert_measurement parse db (refreshMeasurementIn location_id sid res.1 r)
          let out := refreshLoop parse api rows location_id insertRaises rest (i + 1) ins.1 res.2.1
          (out.1 + 1, out.2.1, out.2.2)

/-- What workers/schedular.refresh_latest_for_location leaves behind. `ret` is
the Python return value: every `return` statement in the function is bare, so
it is always `None`; `saved`/`fetched` are the operands of the final
"Saved saved/fetched" log line. -/
structure RefreshResult where
  ret : Option Nat
  saved : Nat
  fetched : Nat
  db : List Measurement
  cache : Cache
deriving Repr, DecidableEq

/-- workers/schedular.refresh_latest_for_location. The outer `try`/`except`
catches a fetch failure (and anything escaping the loop), logs it, and falls
through to `finally: db.close()`, so the function always returns normally —
with `None`, since no `return` carries a value. -/
def refresh_latest_for_location (parse : String → Option Time)
    (api : Int → SensorDetailResp) (rows : List SensorRow)
    (insertRaises : Nat → Bool) (fetch : FetchLatest) (location_id : Int)
    (db : List Measurement) (cache : Cache) : RefreshResult :=
  match fetch with
  | .err =>
    { ret := none, saved := 0, fetched := 0, db := db, cache := cache }
  | .ok results =>
    if results.isEmpty then
      { ret := none, saved := 0, fetched := 0, db := db, cache := cache }
    else
      let out := refreshLoop parse api rows location_id insertRaises results 0 db cache
      { ret := none, saved := out.1, fetched := results.length
        db := out.2.1, cache := out.2.2 }

/-- The `if not sensor_id … continue` / caught-insert-exception test for the
i-th result: exactly the iterations that do not increment measurements_saved. -/
def isMalformed (insertRaises : Nat → Bool) (i : Nat) (r : LatestResult) : Bool :=
  match r.sensorsId with
  | none => true
  | some sid => sid == 0 || insertRaises i

/-- Number of malformed results in a batch, enumerating from index i. -/
def countMalformed (insertRaises : Nat → Bool) : Nat → List LatestResult → Nat
  | _, [] => 0
  | i, r :: rest =>
    (if isMalformed insertRaises i r then 1 else 0) +
      countMalformed insertRaises (i + 1) rest

/-! ## Scheduler tick (app/workers/schedular.py, refresh_all_locations) -/

/-- What one tick leaves behind: the ids for which refresh_latest_for_location
was invoked, in order, and the final `locations_processed` counter. The
function body is wrapped in `try`/`except Exception`, so the tick always
returns normally (with `None`) and the next scheduled run still fires. -/
structure TickResult where
  attempted : List Int
  processed : Nat
deriving Repr, DecidableEq

/-- The per-location loop of refresh_all_locations. `locFails i` injects an
exception out of the i-th iteration's body (the refresh call or the follow-up
count query); the per-location `except` catches it, logs it, and the loop
continues with the next location. -/
def tickLoop (locFails : Nat → Bool) : List Int → Nat → List Int × Nat
  | [], _ => ([], 0)
  | lid :: rest, i =>
    let out := tickLoop locFails rest (i + 1)
    if locFails i then (lid :: out.1, out.2) else (lid :: out.1, out.2 + 1)

/-- workers/schedular.refresh_all_locations. The location listing either raises
(`.error`, contained by the outer `except` as a logged FATAL ERROR) or yields
the location ids; with an empty listing the tick returns early. The
per-location state effects of refresh_latest_for_location are not threaded
here: they never influence the tick's control flow, which depends only on
which iterations raise. -/
def refresh_all_locations (fetchLocs : Except Unit (List Int))
    (locFails : Nat → Bool) : TickResult :=
  match fetchLocs with
  | .error _ => { attempted := [], processed := 0 }
  | .ok locs =>
    if locs.isEmpty then { attempted := [], processed := 0 }
    else
      let out := tickLoop locFails locs 0
      { attempted := out.1, processed := out.2 }

/-! ## Source client (app/services/openqq.py and app/services/openaq.py) -/

/-- Outcome of the underlying `requests.get`: a transport-level error
(connection failure or timeout) or a response carrying a status code and the
decoded "results" list. -/
inductive HttpOutcome (α : Type) where
  | transportError
  | response (status : Nat) (results : List α)
deriving Repr, DecidableEq

/-- The exceptions a client call can raise: a requests transport error, the
HTTPError from raise_for_status, or a KeyError from a required-field access. -/
inductive ClientError where
  | transport
  | httpStatus (code : Nat)
  | keyError
deriving Repr, DecidableEq

/-- The method `Response.raise_for_status()`: raises HTTPError for 4xx/5xx status codes. -/
def raise_for_status (status : Nat) : Except ClientError Unit :=
  if 400 ≤ status then .error (.httpStatus status) else .ok ()

/-- services/openqq.fetch_location_latest: GET with `timeout=40`, then
`raise_for_status()`, then return `r.json().get("results", [])` — an empty
result set comes back as an empty list through a normal return, while a
non-success status or transport failure raises. -/
def fetch_location_latest (o : HttpOutcome LatestResult) :
    Except ClientError (List LatestResult) :=
  match o with
  | .transportError => .error .transport
  | .response st rs =>
    match raise_for_status st with
    | .error e => .error e
    | .ok _ => .ok rs

/-- The `timeout=40` argument of services/openqq.fetch_location_latest. -/
def fetch_location_latest_timeout : Nat := 40

/-- One raw result dict of the `/latest` payload as read by
services/openaq.get_location_latest_measurements; `none` fields model absent
keys (`result["value"]`, `result["sensorsId"]`, `result["locationsId"]` are
indexed directly and raise KeyError when absent). -/
structure LatestRaw where
  datetime_utc : Option String
  value : Option Val
  sensorsId : Option Int
  locationsId : Option Int
  coordinates : Option String
deriving Repr, DecidableEq

/-- The flat record services/openaq.get_location_latest_measurements builds. -/
structure Meas2 where
  timestamp : String
  value : Val
  sensor_id : Int
  location_id : Int
  coordinates : Option String
deriving Repr, DecidableEq

/-- The transformation loop inside get_location_latest_measurements; a missing
required key raises KeyError. -/
def buildMeas2 : List LatestRaw → Except ClientError (List Meas2)
  | [] => .ok []
  | r :: rest =>
    match r.value, r.sensorsId, r.locationsId with
    | some v, some s, some l =>
      match buildMeas2 rest with
      | .ok ms =>
        .ok ({ timestamp := r.datetime_utc.getD "", value := v, sensor_id := s
               location_id := l, coordinates := r.coordinates } :: ms)
      | .error e => .error e
    | _, _, _ => .error .keyError

/-- services/openaq.get_location_latest_measurements: GET with `timeout=10`,
`raise_for_status()`, transform — all inside a `try` whose
`except Exception` prints and returns `[]`, so every failure collapses into
the same empty list a genuinely empty result set produces. -/
def get_location_latest_measurements (o : HttpOutcome LatestRaw) : List Meas2 :=
  let body : Except ClientError (List Meas2) :=
    match o with
    | .transportError => .error .transport
    | .response st rs =>
      match raise_for_status st with
      | .error e => .error e
      | .ok _ => buildMeas2 rs
  match body with
  | .error _ => []
  | .ok ms => ms

/-- The `timeout=10` argument of services/openaq.get_location_latest_measurements. -/
def get_location_latest_measurements_timeout : Nat := 10

/-! ## The measurements fetch transform (app/services/openqq.py,
fetch_measurements_by_sensor) -/

/-- The value of `period.get("datetimeFrom")` / `period.get("utc")`: absent (or
`None`), a string, or a dict carrying an optional "utc" entry. (A dict value is
nonempty, hence truthy; the degenerate empty-dict value is not represented.) -/
inductive TsField where
  | missing
  | str (s : String)
  | obj (utc : Option String)
deriving Repr, DecidableEq

/-- Python truthiness of a TsField: `None` and `""` are falsy, a dict is truthy. -/
def tsFieldTruthy : TsField → Bool
  | .missing => false
  | .str s => !(s == "")
  | .obj _ => true

/-- The assignment `timestamp = period.get("datetimeFrom") or period.get("utc")`, then
`if isinstance(timestamp, dict): timestamp = timestamp.get("utc")`. -/
def extractTs (df u : TsField) : TsIn :=
  match (if tsFieldTruthy df then df else u) with
  | .str s => .str s
  | .obj (some s) => .str s
  | .obj none => .null
  | .missing => .null

/-- The "parameter" field of a raw measurements result: absent or not a dict
(`isinstance` test fails), or a dict whose `.get("name")` is the given value. -/
inductive ParamField where
  | notDict
  | dict (name : Option String)
deriving Repr, DecidableEq

/-- A raw result of `/sensors/id/measurements`, restricted to the fields the
transform reads. `location_dict = some oid` models a dict "location" value with
`.get("id") = oid`; `none` models a non-dict value, in which case the flat
"location_id" key is read instead. `rawRepr` stands for the whole result dict. -/
structure ApiMeasResult where
  period_datetimeFrom : TsField
  period_utc : TsField
  location_dict : Option (Option Int)
  location_id_alt : Option Int
  value : Option Val
  parameter : ParamField
  coordinates : Option String
  rawRepr : String
deriving Repr, DecidableEq

/-- A transformed record as returned by openqq.fetch_measurements_by_sensor.
Every key of the transformed dict is always present; in particular the
"parameter_name" key is present even when its value is `None`. -/
structure MRec where
  sensor_id : Int
  location_id : Option Int
  timestamp : TsIn
  value : Option Val
  parameter_name : Option String
  coordinates : Option String
  rawRepr : String
deriving Repr, DecidableEq

/-- The per-result transformation inside openqq.fetch_measurements_by_sensor:
flatten the period timestamp, the location id and the parameter name (a
non-dict "parameter" value becomes the literal "pm25"; a dict without "name"
becomes `None`). -/
def transformMeasResult (sensor_id : Int) (r : ApiMeasResult) : MRec :=
  { sensor_id := sensor_id
    location_id := match r.location_dict with
      | some oid => oid
      | none => r.location_id_alt
    timestamp := extractTs r.period_datetimeFrom r.period_utc
    value := r.value
    parameter_name := match r.parameter with
      | .dict n => n
      | .notDict => some "pm25"
    coordinates := r.coordinates
    rawRepr := r.rawRepr }

/-! ## Historical backfill driver (backfill_historical.py) -/

/-- One page fetch outcome inside the backfill loops: a raised exception, or
the transformed results list. -/
inductive FetchResp where
  | err
  | ok (ms : List MRec)
deriving Repr, DecidableEq

/-- The measurement dict backfill_historical_measurements builds for one
fetched record, after `if not m.get('location_id'): m['location_id'] =
location_id` (a missing or falsy-zero id is replaced by the caller's).
`m.get("parameter_name", "pm25")` reads the always-present key, so the
default never applies and a `None` value passes through. -/
def backfillMeasurementIn (sensor_id location_id : Int) (m : MRec) :
    MeasurementIn :=
  { sensor_id := sensor_id
    location_id := match m.location_id with
      | none => some location_id
      | some l => if l == 0 then some location_id else some l
    timestamp := m.timestamp
    value := m.value
    parameter_name := m.parameter_name
    coordinates := m.coordinates
    raw := some m.rawRepr }

/-- The per-record loop of one backfill page. `saveFails i` injects a raised
exception out of the i-th `crud.insert_measurement` call of this page; the
surrounding `except … continue` skips the record without counting it.
Returns (page_saved, table). -/
def backfillPage (parse : String → Option Time) (sensor_id location_id : Int)
    (saveFails : Nat → Bool) :
    List MRec → Nat → List Measurement → Nat × List Measurement
  | [], _, db => (0, db)
  | m :: rest, i, db =>
    if saveFails i then
      backfillPage parse sensor_id location_id saveFails rest (i + 1) db
    else
      let ins := insert_measurement parse db (backfillMeasurementIn sensor_id location_id m)
      let out := backfillPage parse sensor_id location_id saveFails rest (i + 1) ins.1
      (out.1 + 1, out.2)

/-- The `while True` page loop of backfill_historical.py. An empty page breaks;
a fetch exception is caught by the per-page `except`, which also breaks; both
fall through to `return total_saved`. The Python loop has no intrinsic bound,
so the recursion is driven by explicit fuel; `none` means the fuel ran out
before the loop hit a terminal page. -/
def backfillLoop (parse : String → Option Time) (fetch : Nat → FetchResp)
    (sensor_id location_id : Int) (saveFails : Nat → Nat → Bool) :
    Nat → Nat → List Measurement → Nat → Option (Nat × List Measurement)
  | _, _, _, 0 => none
  | page, totalSaved, db, fuel + 1 =>
    match fetch page with
    | .err => some (totalSaved, db)
    | .ok [] => some (totalSaved, db)
    | .ok (m :: rest) =>
      let pg := backfillPage parse sensor_id location_id (saveFails page) (m :: rest) 0 db
      backfillLoop parse fetch sensor_id location_id saveFails
        (page + 1) (totalSaved + pg.1) pg.2 fuel

/-- backfill_historical.backfill_historical_measurements: start at page 1 with
total_saved = 0 and return the accumulated total (as a normal return value,
never an exception). -/
def backfill_historical_measurements (parse : String → Option Time)
    (fetch : Nat → FetchResp) (sensor_id location_id : Int)
    (saveFails : Nat → Nat → Bool) (db : List Measurement) (fuel : Nat) :
    Option (Nat × List Measurement) :=
  backfillLoop parse fetch sensor_id location_id saveFails 1 0 db fuel

/-- The value of `page_saved` for one page's records under the fault oracle, counting from
record index i. -/
def pageSavedCount (saveFails : Nat → Bool) : Nat → List MRec → Nat
  | _, [] => 0
  | i, _ :: rest =>
    (if saveFails i then 0 else 1) + pageSavedCount saveFails (i + 1) rest

/-- Sum of the per-page saved counts over consecutive pages starting at the
given page number. -/
def sumSaved (saveFails : Nat → Nat → Bool) : Nat → List (List MRec) → Nat
  | _, [] => 0
  | page, p :: rest =>
    pageSavedCount (saveFails page) 0 p + sumSaved saveFails (page + 1) rest

/-- The upstream serves the given nonempty pages consecutively from `page` and
then answers `term` (an empty page, or a raised fetch error). -/
def servesThen (fetch : Nat → FetchResp) (term : FetchResp) :
    Nat → List (List MRec) → Prop
  | page, [] => fetch page = term
  | page, p :: rest => fetch page = .ok p ∧ p ≠ [] ∧ servesThen fetch term (page + 1) rest

/-! ## Utils backfill path (app/utils/backfill.py,
backfill_measurements_for_sensor) -/

/-- The dict app/utils/backfill.backfill_measurements_for_sensor builds for one
fetched record. It carries no "parameter_name" key (a "flag_info" key is passed
instead, which insert_measurement never reads), so `m.get("parameter_name")`
inside insert_measurement yields `None`. The raw snapshot passed is the
transformed record, stood for opaquely by the same `rawRepr`. -/
def backfillUtilsMeasurementIn (r : MRec) : MeasurementIn :=
  { sensor_id := r.sensor_id
    location_id := r.location_id
    timestamp := r.timestamp
    value := r.value
    parameter_name := none
    coordinates := r.coordinates
    raw := some r.rawRepr }

/-- The inner `for r in res` loop of backfill_measurements_for_sensor. -/
def backfillUtilsInsertPage (parse : String → Option Time)
    (db : List Measurement) : List MRec → List Measurement
  | [] => db
  | r :: rest =>
    backfillUtilsInsertPage parse
      (insert_measurement parse db (backfillUtilsMeasurementIn r)).1 rest

/-- The `while page <= pages` loop of backfill_measurements_for_sensor. Unlike
the historical driver, the function has no `try`/`except`, so a fetch failure
propagates to the caller. The fuel argument is `pages - page + 1`, the number
of remaining admissible page values. -/
def backfillUtilsLoop (parse : String → Option Time)
    (fetch : Nat → Except ClientError (List MRec)) :
    Nat → List Measurement → Nat → Except ClientError (List Measurement)
  | _, db, 0 => .ok db
  | page, db, left + 1 =>
    match fetch page with
    | .error e => .error e
    | .ok [] => .ok db
    | .ok (m :: rest) =>
      backfillUtilsLoop parse fetch (page + 1)
        (backfillUtilsInsertPage parse db (m :: rest)) left

/-- app/utils/backfill.backfill_measurements_for_sensor: pages 1 through
`pages`, stopping early on an empty page. -/
def backfill_measurements_for_sensor (parse : String → Option Time)
    (fetch : Nat → Except ClientError (List MRec)) (pages : Nat)
    (db : List Measurement) : Except ClientError (List Measurement) :=
  backfillUtilsLoop parse fetch 1 db pages

/-! ## Helper lemmas: the upsert -/

theorem keyMatches_iff {sid : Int} {ts : Option Time} {r : Measurement} :
    keyMatches sid ts r = true ↔ r.sensor_id = sid ∧ r.timestamp = ts := by
  simp [keyMatches]

theorem insertPayload_keyMatches (parse : String → Option Time)
    (m : MeasurementIn) :
    keyMatches m.sensor_id (parseTs parse m.timestamp)
      (insertPayload parse m) = true := by
  simp [keyMatches, insertPayload]

theorem countP_upsertRow_self (p : Measurement → Bool) (payload : Measurement)
    (hp : p payload = true) (db : List Measurement) :
    List.countP p (upsertRow p payload db) =
      if List.countP p db = 0 then 1 else List.countP p db := by
  induction db with
  | nil => simp [upsertRow, hp]
  | cons r rest ih =>
    cases hr : p r with
    | true => simp [upsertRow, hr, List.countP_cons, hp]
    | false => simp [upsertRow, hr, List.countP_cons, ih]

theorem countP_upsertRow_other (p q : Measurement → Bool)
    (payload : Measurement) (hq : q payload = false)
    (hpq : ∀ r, p r = true → q r = false) (db : List Measurement) :
    List.countP q (upsertRow p payload db) = List.countP q db := by
  induction db with
  | nil => simp [upsertRow, List.countP_cons, hq]
  | cons r rest ih =>
    cases hr : p r with
    | true => simp [upsertRow, hr, List.countP_cons, hq, hpq r hr]
    | false => simp [upsertRow, hr, List.countP_cons, ih]

theorem upsertRow_idem (p : Measurement → Bool) (payload : Measurement)
    (hp : p payload = true) (db : List Measurement) :
    upsertRow p payload (upsertRow p payload db) = upsertRow p payload db := by
  induction db with
  | nil => simp [upsertRow, hp]
  | cons r rest ih =>
    cases hr : p r with
    | true => simp [upsertRow, hr, hp]
    | false => simp [upsertRow, hr, ih]

theorem mem_upsertRow {p : Measurement → Bool} {payload r : Measurement}
    {db : List Measurement} (h : r ∈ upsertRow p payload db) :
    r = payload ∨ r ∈ db := by
  induction db with
  | nil => simpa [upsertRow] using h
  | cons x rest ih =>
    cases hx : p x with
    | true =>
      rw [upsertRow, hx, if_pos rfl] at h
      rcases List.mem_cons.mp h with h1 | h1
      · exact .inl h1
      · exact .inr (List.mem_cons_of_mem _ h1)
    | false =>
      rw [upsertRow, hx] at h
      simp only [Bool.false_eq_true, if_false] at h
      rcases List.mem_cons.mp h with h1 | h1
      · exact .inr (by simp [h1])
      · rcases ih h1 with h2 | h2
        · exact .inl h2
        · exact .inr (by simp [h2])

theorem payload_mem_upsertRow (p : Measurement → Bool) (payload : Measurement)
    (db : List Measurement) : payload ∈ upsertRow p payload db := by
  induction db with
  | nil => simp [upsertRow]
  | cons x rest ih =>
    cases hx : p x with
    | true => simp [upsertRow, hx]
    | false =>
      rw [upsertRow, hx]
      simp only [Bool.false_eq_true, if_false, List.mem_cons]
      exact .inr ih

theorem upsertRow_key_unique {p : Measurement → Bool} {payload : Measurement}
    (db : List Measurement) (hcnt : List.countP p db ≤ 1) :
    ∀ r ∈ upsertRow p payload db, p r = true → r = payload := by
  induction db with
  | nil =>
    intro r hr _
    simpa [upsertRow] using hr
  | cons x rest ih =>
    intro r hr hpr
    cases hx : p x with
    | true =>
      rw [upsertRow, hx, if_pos rfl] at hr
      rcases List.mem_cons.mp hr with h1 | h1
      · exact h1
      · exfalso
        have h0 : List.countP p rest = 0 := by
          have hc := List.countP_cons p x rest
          rw [hc, if_pos hx] at hcnt
          omega
        exact (List.countP_eq_zero.mp h0) r h1 hpr
    | false =>
      rw [upsertRow, hx] at hr
      simp only [Bool.false_eq_true, if_false] at hr
      rcases List.mem_cons.mp hr with h1 | h1
      · subst h1
        exact absurd hpr (by simp [hx])
      · have hrest : List.countP p rest ≤ 1 := by
          have hc := List.countP_cons p x rest
          rw [hc] at hcnt
          omega
        exact ih hrest r h1 hpr

theorem length_upsertRow (p : Measurement → Bool) (payload : Measurement)
    (db : List Measurement) :
    (upsertRow p payload db).length =
      if List.countP p db = 0 then db.length + 1 else db.length := by
  induction db with
  | nil => simp [upsertRow]
  | cons x rest ih =>
    cases hx : p x with
    | true => simp [upsertRow, hx, List.countP_cons]
    | false =>
      rw [upsertRow, hx]
      simp only [Bool.false_eq_true, if_false, List.length_cons,
        List.countP_cons, hx, Nat.add_zero, ih]
      split <;> omega

theorem insert_measurement_countKey_self (parse : String → Option Time)
    (db : List Measurement) (m : MeasurementIn) :
    countKey (insert_measurement parse db m).1 m.sensor_id
        (parseTs parse m.timestamp) =
      if countKey db m.sensor_id (parseTs parse m.timestamp) = 0 then 1
      else countKey db m.sensor_id (parseTs parse m.timestamp) :=
  countP_upsertRow_self _ _ (insertPayload_keyMatches parse m) db

theorem insert_measurement_countKey_other (parse : String → Option Time)
    (db : List Measurement) (m : MeasurementIn) (sid : Int) (ts : Option Time)
    (hne : ¬(sid = m.sensor_id ∧ ts = parseTs parse m.timestamp)) :
    countKey (insert_measurement parse db m).1 sid ts = countKey db sid ts := by
  apply countP_upsertRow_other
  · rw [Bool.eq_false_iff]
    intro hcontra
    rw [keyMatches_iff] at hcontra
    obtain ⟨h1, h2⟩ := hcontra
    simp only [insertPayload] at h1 h2
    exact hne ⟨h1.symm, h2.symm⟩
  · intro r hr
    rw [keyMatches_iff] at hr
    rw [Bool.eq_false_iff]
    intro hcontra
    rw [keyMatches_iff] at hcontra
    exact hne ⟨hcontra.1.symm.trans hr.1, hcontra.2.symm.trans hr.2⟩

/-! ## Helper lemmas: the range query -/

theorem mem_insertDesc {r x : Measurement} {l : List Measurement} :
    r ∈ insertDesc x l ↔ r = x ∨ r ∈ l := by
  induction l with
  | nil => simp [insertDesc]
  | cons y ys ih =>
    cases h : descBefore x y with
    | true => simp [insertDesc, h]
    | false =>
      rw [insertDesc, h]
      simp only [Bool.false_eq_true, if_false, List.mem_cons, ih]
      tauto

theorem mem_sortDesc {r : Measurement} {l : List Measurement} :
    r ∈ sortDesc l ↔ r ∈ l := by
  induction l with
  | nil => simp [sortDesc]
  | cons x xs ih => simp [sortDesc, mem_insertDesc, ih]

theorem mem_query_filters {db : List Measurement} {sid : Int}
    {start endB : Option Time} {limit : Nat} {r : Measurement}
    (hr : r ∈ get_measurements_by_sensor db sid start endB limit) :
    r.sensor_id = sid ∧
    (∀ s, start = some s → sqlGe r.timestamp s = true) ∧
    (∀ e, endB = some e → sqlLe r.timestamp e = true) := by
  unfold get_measurements_by_sensor at hr
  have hr1 := List.take_subset _ _ hr
  rw [mem_sortDesc] at hr1
  rcases start with _ | s <;> rcases endB with _ | e <;>
    simp only [List.mem_filter, beq_iff_eq] at hr1
  · refine ⟨hr1.2, ?_, ?_⟩
    · intro s hs; exact absurd hs (by simp)
    · intro e he; exact absurd he (by simp)
  · refine ⟨hr1.1.2, ?_, ?_⟩
    · intro s hs; exact absurd hs (by simp)
    · intro e' he
      rw [Option.some_inj] at he; subst he; exact hr1.2
  · refine ⟨hr1.1.2, ?_, ?_⟩
    · intro s' hs
      rw [Option.some_inj] at hs; subst hs; exact hr1.2
    · intro e he; exact absurd he (by simp)
  · refine ⟨hr1.1.1.2, ?_, ?_⟩
    · intro s' hs
      rw [Option.some_inj] at hs; subst hs; exact hr1.1.2
    · intro e' he
      rw [Option.some_inj] at he; subst he; exact hr1.2

theorem sqlGe_ne_none {ts : Option Time} {b : Time}
    (h : sqlGe ts b = true) : ts ≠ none := by
  cases ts with
  | none => simp [sqlGe] at h
  | some t => simp

theorem sqlLe_ne_none {ts : Option Time} {b : Time}
    (h : sqlLe ts b = true) : ts ≠ none := by
  cases ts with
  | none => simp [sqlLe] at h
  | some t => simp

/-! ## Helper lemmas: resolver and refresh loop -/

theorem cacheGet_cachePut (c : Cache) (sid : Int) (v : String) :
    cacheGet (cachePut c sid v) sid = some v := by
  simp [cacheGet, cachePut, List.find?]

theorem apiLookup_caches (api : Int → SensorDetailResp) (cache : Cache)
    (s : Int) :
    cacheGet (apiLookup api cache s).2.1 s = some (apiLookup api cache s).1 ∧
    (apiLookup api cache s).2.2 = 1 := by
  unfold apiLookup
  rcases api s with _ | pn
  · simp [cacheGet_cachePut]
  · rcases pn with _ | p
    · simp [cacheGet_cachePut]
    · by_cases hp : p == ""
      · simp [hp, cacheGet_cachePut]
      · simp [hp, cacheGet_cachePut]

theorem resolver_caches_self (api : Int → SensorDetailResp)
    (rows : List SensorRow) (cache : Cache) (s : Int)
    (hmiss : cacheGet cache s = none) :
    cacheGet (get_sensor_parameter_name api rows cache s).2.1 s =
      some (get_sensor_parameter_name api rows cache s).1 := by
  unfold get_sensor_parameter_name
  rw [hmiss]
  cases hfind : sensorsFind rows s with
  | none =>
    simp only [hfind]
    exact (apiLookup_caches api cache s).1
  | some row =>
    simp only [hfind]
    cases hpn : row.parameter_name with
    | none =>
      simp only [hpn]
      exact (apiLookup_caches api cache s).1
    | some p =>
      simp only [hpn]
      cases hp : p == "" with
      | true =>
        simp only [hp, if_true]
        exact (apiLookup_caches api cache s).1
      | false =>
        simp only [hp, Bool.false_eq_true, if_false]
        simp [cacheGet_cachePut]

theorem resolver_cache_hit (api : Int → SensorDetailResp)
    (rows : List SensorRow) (cache : Cache) (s : Int) (v : String)
    (hhit : cacheGet cache s = some v) :
    get_sensor_parameter_name api rows cache s = (v, cache, 0) := by
  unfold get_sensor_parameter_name
  rw [hhit]

theorem refreshLoop_saved (parse : String → Option Time)
    (api : Int → SensorDetailResp) (rows : List SensorRow) (location_id : Int)
    (insertRaises : Nat → Bool) (results : List LatestResult) :
    ∀ (i : Nat) (db : List Measurement) (cache : Cache),
      (refreshLoop parse api rows location_id insertRaises results i db cache).1 +
        countMalformed insertRaises i results = results.length := by
  induction results with
  | nil => intro i db cache; simp [refreshLoop, countMalformed]
  | cons r rest ih =>
    intro i db cache
    rcases hs : r.sensorsId with _ | sid
    · have h1 : (refreshLoop parse api rows location_id insertRaises
          (r :: rest) i db cache).1 =
          (refreshLoop parse api rows location_id insertRaises
            rest (i + 1) db cache).1 := by
        simp [refreshLoop, hs]
      have h2 : countMalformed insertRaises i (r :: rest) =
          1 + countMalformed insertRaises (i + 1) rest := by
        simp [countMalformed, isMalformed, hs]
      rw [h1, h2, List.length_cons]
      have := ih (i + 1) db cache
      omega
    · cases hz : sid == 0 with
      | true =>
        have h1 : (refreshLoop parse api rows location_id insertRaises
            (r :: rest) i db cache).1 =
            (refreshLoop parse api rows location_id insertRaises
              rest (i + 1) db cache).1 := by
          simp [refreshLoop, hs, hz]
        have h2 : countMalformed insertRaises i (r :: rest) =
            1 + countMalformed insertRaises (i + 1) rest := by
          simp [countMalformed, isMalformed, hs, hz]
        rw [h1, h2, List.length_cons]
        have := ih (i + 1) db cache
        omega
      | false =>
        cases hf : insertRaises i with
        | true =>
          have h1 : (refreshLoop parse api rows location_id insertRaises
              (r :: rest) i db cache).1 =
              (refreshLoop parse api rows location_id insertRaises rest (i + 1)
                db (get_sensor_parameter_name api rows cache sid).2.1).1 := by
            simp [refreshLoop, hs, hz, hf]
          have h2 : countMalformed insertRaises i (r :: rest) =
              1 + countMalformed insertRaises (i + 1) rest := by
            simp [countMalformed, isMalformed, hs, hz, hf]
          rw [h1, h2, List.length_cons]
          have := ih (i + 1) db
            (get_sensor_parameter_name api rows cache sid).2.1
          omega
        | false =>
          have h1 : (refreshLoop parse api rows location_id insertRaises
              (r :: rest) i db cache).1 =
              (refreshLoop parse api rows location_id insertRaises rest (i + 1)
                (insert_measurement parse db
                  (refreshMeasurementIn location_id sid
                    (get_sensor_parameter_name api rows cache sid).1 r)).1
                (get_sensor_parameter_name api rows cache sid).2.1).1 + 1 := by
            simp [refreshLoop, hs, hz, hf]
          have h2 : countMalformed insertRaises i (r :: rest) =
              countMalformed insertRaises (i + 1) rest := by
            simp [countMalformed, isMalformed, hs, hz, hf]
          rw [h1, h2, List.length_cons]
          have := ih (i + 1)
            (insert_measurement parse db
              (refreshMeasurementIn location_id sid
                (get_sensor_parameter_name api rows cache sid).1 r)).1
            (get_sensor_parameter_name api rows cache sid).2.1
          omega

/-! ## Helper lemmas: scheduler tick -/

/-- Number of loop iterations, counting from index i, whose body completes
without raising — the value of `locations_processed`. -/
def countProcessed (locFails : Nat → Bool) : Nat → List Int → Nat
  | _, [] => 0
  | i, _ :: rest =>
    (if locFails i then 0 else 1) + countProcessed locFails (i + 1) rest

theorem tickLoop_spec (locFails : Nat → Bool) :
    ∀ (locs : List Int) (i : Nat),
      (tickLoop locFails locs i).1 = locs ∧
      (tickLoop locFails locs i).2 = countProcessed locFails i locs := by
  intro locs
  induction locs with
  | nil => intro i; simp [tickLoop, countProcessed]
  | cons lid rest ih =>
    intro i
    have h := ih (i + 1)
    cases hf : locFails i with
    | true => simp [tickLoop, countProcessed, hf, h.1, h.2]
    | false => simp [tickLoop, countProcessed, hf, h.1, h.2, Nat.add_comm]

/-! ## Helper lemmas: backfill drivers -/

theorem backfillPage_count (parse : String → Option Time)
    (sid lid : Int) (f : Nat → Bool) :
    ∀ (ms : List MRec) (i : Nat) (db : List Measurement),
      (backfillPage parse sid lid f ms i db).1 = pageSavedCount f i ms := by
  intro ms
  induction ms with
  | nil => intro i db; simp [backfillPage, pageSavedCount]
  | cons m rest ih =>
    intro i db
    cases hf : f i with
    | true => simp [backfillPage, pageSavedCount, hf, ih]
    | false =>
      simp only [backfillPage, pageSavedCount, hf, Bool.false_eq_true,
        if_false]
      rw [ih]
      omega

theorem backfillLoop_serves (parse : String → Option Time)
    (fetch : Nat → FetchResp) (sid lid : Int) (sf : Nat → Nat → Bool)
    (term : FetchResp) (hterm : term = .err ∨ term = .ok []) :
    ∀ (ps : List (List MRec)) (page totalSaved : Nat) (db : List Measurement)
      (fuel : Nat), ps.length < fuel → servesThen fetch term page ps →
      ∃ db', backfillLoop parse fetch sid lid sf page totalSaved db fuel =
        some (totalSaved + sumSaved sf page ps, db') := by
  intro ps
  induction ps with
  | nil =>
    intro page total db fuel hf hserve
    rcases fuel with _ | fuel
    · omega
    · refine ⟨db, ?_⟩
      have hfp : fetch page = term := hserve
      rcases hterm with rfl | rfl
      · simp [backfillLoop, hfp, sumSaved]
      · simp [backfillLoop, hfp, sumSaved]
  | cons p rest ih =>
    intro page total db fuel hf hserve
    rcases fuel with _ | fuel
    · omega
    · obtain ⟨hfp, hpne, hrest⟩ := hserve
      rcases p with _ | ⟨m, ms⟩
      · exact absurd rfl hpne
      · have hlen : rest.length < fuel := by
          simp only [List.length_cons] at hf
          omega
        obtain ⟨db', hdb'⟩ := ih (page + 1)
          (total + (backfillPage parse sid lid (sf page) (m :: ms) 0 db).1)
          (backfillPage parse sid lid (sf page) (m :: ms) 0 db).2
          fuel hlen hrest
        refine ⟨db', ?_⟩
        have hstep : backfillLoop parse fetch sid lid sf page total db
            (fuel + 1) =
            backfillLoop parse fetch sid lid sf (page + 1)
              (total + (backfillPage parse sid lid (sf page) (m :: ms) 0 db).1)
              (backfillPage parse sid lid (sf page) (m :: ms) 0 db).2 fuel := by
          simp [backfillLoop, hfp]
        have hcnt := backfillPage_count parse sid lid (sf page) (m :: ms) 0 db
        have hsum : sumSaved sf page ((m :: ms) :: rest) =
            pageSavedCount (sf page) 0 (m :: ms) +
              sumSaved sf (page + 1) rest := by
          simp [sumSaved]
        rw [hstep, hdb', hsum, hcnt, Nat.add_assoc]

/-! ## Helper lemmas: parameter-name provenance (the three ingestion paths) -/

theorem mem_backfillUtilsInsertPage (parse : String → Option Time) :
    ∀ (ms : List MRec) (db : List Measurement) (r : Measurement),
      r ∈ backfillUtilsInsertPage parse db ms →
      r ∈ db ∨ r.parameter_name = none := by
  intro ms
  induction ms with
  | nil => intro db r hr; exact .inl hr
  | cons m rest ih =>
    intro db r hr
    rw [backfillUtilsInsertPage] at hr
    rcases ih _ r hr with h | h
    · rcases mem_upsertRow h with h1 | h1
      · subst h1
        exact .inr rfl
      · exact .inl h1
    · exact .inr h

theorem mem_backfillUtilsLoop (parse : String → Option Time)
    (fetch : Nat → Except ClientError (List MRec)) :
    ∀ (left page : Nat) (db db' : List Measurement),
      backfillUtilsLoop parse fetch page db left = .ok db' →
      ∀ r ∈ db', r ∈ db ∨ r.parameter_name = none := by
  intro left
  induction left with
  | zero =>
    intro page db db' h r hr
    rw [backfillUtilsLoop] at h
    cases h
    exact .inl hr
  | succ left ih =>
    intro page db db' h r hr
    rw [backfillUtilsLoop] at h
    rcases hfp : fetch page with e | ms
    · rw [hfp] at h; cases h
    · rw [hfp] at h
      rcases ms with _ | ⟨m, rest⟩
      · cases h
        exact .inl hr
      · have := ih (page + 1) _ db' h r hr
        rcases this with h1 | h1
        · exact mem_backfillUtilsInsertPage parse (m :: rest) db r h1
        · exact .inr h1

theorem mem_refreshLoop_db (parse : String → Option Time)
    (api : Int → SensorDetailResp) (rows : List SensorRow)
    (location_id : Int) (ir : Nat → Bool) :
    ∀ (results : List LatestResult) (i : Nat) (db : List Measurement)
      (cache : Cache) (r : Measurement),
      r ∈ (refreshLoop parse api rows location_id ir results i db cache).2.1 →
      r ∈ db ∨ ∃ s, r.parameter_name = some s := by
  intro results
  induction results with
  | nil =>
    intro i db cache r hr
    simp only [refreshLoop] at hr
    exact .inl hr
  | cons x rest ih =>
    intro i db cache r hr
    rcases hs : x.sensorsId with _ | sid
    · have h1 : (refreshLoop parse api rows location_id ir (x :: rest)
          i db cache).2.1 =
          (refreshLoop parse api rows location_id ir rest (i + 1)
            db cache).2.1 := by
        simp [refreshLoop, hs]
      rw [h1] at hr
      exact ih (i + 1) db cache r hr
    · cases hz : sid == 0 with
      | true =>
        have h1 : (refreshLoop parse api rows location_id ir (x :: rest)
            i db cache).2.1 =
            (refreshLoop parse api rows location_id ir rest (i + 1)
              db cache).2.1 := by
          simp [refreshLoop, hs, hz]
        rw [h1] at hr
        exact ih (i + 1) db cache r hr
      | false =>
        cases hf : ir i with
        | true =>
          have h1 : (refreshLoop parse api rows location_id ir (x :: rest)
              i db cache).2.1 =
              (refreshLoop parse api rows location_id ir rest (i + 1) db
                (get_sensor_parameter_name api rows cache sid).2.1).2.1 := by
            simp [refreshLoop, hs, hz, hf]
          rw [h1] at hr
          exact ih (i + 1) db _ r hr
        | false =>
          have h1 : (refreshLoop parse api rows location_id ir (x :: rest)
              i db cache).2.1 =
              (refreshLoop parse api rows location_id ir rest (i + 1)
                (insert_measurement parse db
                  (refreshMeasurementIn location_id sid
                    (get_sensor_parameter_name api rows cache sid).1 x)).1
                (get_sensor_parameter_name api rows cache sid).2.1).2.1 := by
            simp [refreshLoop, hs, hz, hf]
          rw [h1] at hr
          have hr2 := ih (i + 1) _ _ r hr
          rcases hr2 with h1m | h1m
          · rcases mem_upsertRow h1m with h2 | h2
            · subst h2
              exact .inr ⟨_, rfl⟩
            · exact .inl h2
          · exact .inr h1m

/-! ## Concrete fixtures for witnesses and counterexamples -/

/-- A parser under which every timestamp string parses to time 0. -/
def exampleParse : String → Option Time := fun _ => some 0

/-- A parser modelling an unparseable timestamp: every parse fails. -/
def exampleParseFail : String → Option Time := fun _ => none

/-- A concrete incoming measurement record. -/
def exampleMeasIn : MeasurementIn :=
  { sensor_id := 7, location_id := some 42
    timestamp := .str "2024-01-01T00:00:00Z"
    value := some 18, coordinates := none
    parameter_name := some "pm25", raw := some "payload" }

/-- A stored row with a NULL timestamp for sensor 7. -/
def exampleNullRow : Measurement :=
  { sensor_id := 7, location_id := some 42, timestamp := none
    value := some 5, parameter_name := none, coordinates := none, raw := none }

/-! ## Claim C1 -/

/-- C1: applying crud.insert_measurement twice with identical input is
idempotent and leaves exactly one stored record for the (sensor_id, timestamp)
key, whose fields equal the written payload; the at-most-one-record-per-key
invariant is preserved by every upsert, so re-ingesting an existing pair
overwrites rather than duplicates. -/
theorem C1_upsert_idempotent_keyed (parse : String → Option Time)
    (db : List Measurement) (m : MeasurementIn)
    (hinv : ∀ sid ts, countKey db sid ts ≤ 1) :
    insert_measurement parse (insert_measurement parse db m).1 m =
        insert_measurement parse db m ∧
    countKey (insert_measurement parse db m).1 m.sensor_id
        (parseTs parse m.timestamp) = 1 ∧
    (∀ r ∈ (insert_measurement parse db m).1,
        keyMatches m.sensor_id (parseTs parse m.timestamp) r = true →
          r = (insert_measurement parse db m).2) ∧
    (∀ sid ts, countKey (insert_measurement parse db m).1 sid ts ≤ 1) := by
  refine ⟨?_, ?_, ?_, ?_⟩
  · simp only [insert_measurement]
    rw [upsertRow_idem _ _ (insertPayload_keyMatches parse m)]
  · rw [insert_measurement_countKey_self]
    have h := hinv m.sensor_id (parseTs parse m.timestamp)
    split <;> omega
  · intro r hr hk
    exact upsertRow_key_unique db
      (hinv m.sensor_id (parseTs parse m.timestamp)) r hr hk
  · intro sid ts
    by_cases h : sid = m.sensor_id ∧ ts = parseTs parse m.timestamp
    · obtain ⟨rfl, rfl⟩ := h
      rw [insert_measurement_countKey_self]
      have := hinv m.sensor_id (parseTs parse m.timestamp)
      split <;> omega
    · rw [insert_measurement_countKey_other parse db m sid ts h]
      exact hinv sid ts

/-- Witness for C1: the concrete record on an empty store. -/
theorem C1_upsert_idempotent_keyed_witness :
    insert_measurement exampleParse
        (insert_measurement exampleParse [] exampleMeasIn).1 exampleMeasIn =
      insert_measurement exampleParse [] exampleMeasIn ∧
    countKey (insert_measurement exampleParse [] exampleMeasIn).1
        exampleMeasIn.sensor_id
        (parseTs exampleParse exampleMeasIn.timestamp) = 1 := by
  have h := C1_upsert_idempotent_keyed exampleParse [] exampleMeasIn
    (by intro sid ts; simp [countKey])
  exact ⟨h.1, h.2.1⟩

/-! ## Claim C8 -/

/-- C8: a measurement whose timestamp string fails to parse is stored with a
NULL timestamp (retained, not rejected), and every range query passing a lower
or an upper time bound excludes all NULL-timestamp rows from its result. -/
theorem C8_null_timestamp_retained_but_excluded (parse : String → Option Time)
    (db : List Measurement) (m : MeasurementIn) (s : String)
    (hts : m.timestamp = TsIn.str s)
    (hfail : parse (s.replace "Z" "+00:00") = none)
    (qdb : List Measurement) (sid : Int) (start endB : Option Time)
    (limit : Nat) (hbound : start ≠ none ∨ endB ≠ none) :
    (insert_measurement parse db m).2.timestamp = none ∧
    (insert_measurement parse db m).2 ∈ (insert_measurement parse db m).1 ∧
    ∀ r ∈ get_measurements_by_sensor qdb sid start endB limit,
      r.timestamp ≠ none := by
  refine ⟨?_, ?_, ?_⟩
  · simp [insert_measurement, insertPayload, parseTs, hts, hfail]
  · exact payload_mem_upsertRow _ _ db
  · intro r hr
    have h := mem_query_filters hr
    rcases hbound with hb | hb
    · rcases start with _ | s0
      · exact absurd rfl hb
      · exact sqlGe_ne_none (h.2.1 s0 rfl)
    · rcases endB with _ | e0
      · exact absurd rfl hb
      · exact sqlLe_ne_none (h.2.2 e0 rfl)

/-- Witness for C8: a failing parse on a concrete record, and a query with a
lower bound over a store holding a NULL-timestamp row. -/
theorem C8_null_timestamp_retained_but_excluded_witness :
    (insert_measurement exampleParseFail [] exampleMeasIn).2.timestamp = none ∧
    (insert_measurement exampleParseFail [] exampleMeasIn).2 ∈
      (insert_measurement exampleParseFail [] exampleMeasIn).1 ∧
    ∀ r ∈ get_measurements_by_sensor [exampleNullRow] 7 (some 0) none 100,
      r.timestamp ≠ none := by
  have h := C8_null_timestamp_retained_but_excluded exampleParseFail []
    exampleMeasIn "2024-01-01T00:00:00Z" rfl rfl [exampleNullRow] 7
    (some 0) none 100 (Or.inl (by simp))
  exact h

/-! ## Claim C9 -/

/-- C9: for every sensor at most one stored measurement has a NULL timestamp:
a newly ingested record whose timestamp fails to parse overwrites the sensor's
previously stored NULL-timestamp row (the SQLAlchemy lookup `timestamp == None`
compiles to IS NULL and finds it), leaving the store's size unchanged instead
of retaining both. -/
theorem C9_single_null_timestamp_per_sensor (parse : String → Option Time)
    (db : List Measurement) (m : MeasurementIn)
    (hnull : parseTs parse m.timestamp = none)
    (hinv : countKey db m.sensor_id none ≤ 1) :
    countKey (insert_measurement parse db m).1 m.sensor_id none = 1 ∧
    (∀ r ∈ (insert_measurement parse db m).1,
      r.sensor_id = m.sensor_id → r.timestamp = none →
        r = (insert_measurement parse db m).2) ∧
    (insert_measurement parse db m).1.length =
      (if countKey db m.sensor_id none = 0 then db.length + 1
       else db.length) := by
  refine ⟨?_, ?_, ?_⟩
  · have h := insert_measurement_countKey_self parse db m
    rw [hnull] at h
    rw [h]
    split <;> omega
  · intro r hr hsid hts
    have hkm : keyMatches m.sensor_id (parseTs parse m.timestamp) r = true := by
      rw [hnull, keyMatches_iff]
      exact ⟨hsid, hts⟩
    have hcnt : List.countP
        (keyMatches m.sensor_id (parseTs parse m.timestamp)) db ≤ 1 := by
      rw [hnull]
      exact hinv
    exact upsertRow_key_unique db hcnt r hr hkm
  · have hck : countKey db m.sensor_id none =
        List.countP (keyMatches m.sensor_id (parseTs parse m.timestamp)) db := by
      rw [hnull]
      rfl
    rw [hck]
    exact length_upsertRow
      (keyMatches m.sensor_id (parseTs parse m.timestamp))
      (insertPayload parse m) db

/-- Witness for C9: re-ingesting an unparseable-timestamp record over a store
already holding the sensor's NULL-timestamp row keeps a single row. -/
theorem C9_single_null_timestamp_per_sensor_witness :
    countKey (insert_measurement exampleParseFail [exampleNullRow]
        exampleMeasIn).1 7 none = 1 ∧
    (insert_measurement exampleParseFail [exampleNullRow]
        exampleMeasIn).1.length = 1 := by
  have h := C9_single_null_timestamp_per_sensor exampleParseFail
    [exampleNullRow] exampleMeasIn rfl (by decide)
  refine ⟨h.1, ?_⟩
  rw [h.2.2]
  decide

/-! ## Claim C3 -/

theorem apiLookup_unknown (api : Int → SensorDetailResp) (cache : Cache)
    (s : Int)
    (h : api s = .err ∨ api s = .ok none ∨ api s = .ok (some "")) :
    apiLookup api cache s = ("unknown", cachePut cache s "unknown", 1) := by
  unfold apiLookup
  rcases h with h | h | h <;> simp [h]

theorem resolver_no_row (api : Int → SensorDetailResp) (rows : List SensorRow)
    (cache : Cache) (s : Int) (hmiss : cacheGet cache s = none)
    (hfind : sensorsFind rows s = none) :
    get_sensor_parameter_name api rows cache s = apiLookup api cache s := by
  unfold get_sensor_parameter_name
  rw [hmiss]
  simp only [hfind]

/-- C3: get_sensor_parameter_name resolves strictly in the order process-memory
cache, then stored sensor row (a non-empty stored name is cached and returned),
then fetch_sensor_detail; for a sensor with no stored row two calls in the same
process invoke the API at most once; and when the fetch fails or omits the
name, the sentinel "unknown" is cached and every later call for that sensor
returns the sentinel without another API invocation. -/
theorem C3_resolver_tiering_and_caching (api : Int → SensorDetailResp)
    (rows : List SensorRow) (cache : Cache) (s : Int) :
    (∀ v, cacheGet cache s = some v →
      get_sensor_parameter_name api rows cache s = (v, cache, 0)) ∧
    (∀ row p, cacheGet cache s = none → sensorsFind rows s = some row →
      row.parameter_name = some p → ¬(p = "") →
      get_sensor_parameter_name api rows cache s =
        (p, cachePut cache s p, 0)) ∧
    (sensorsFind rows s = none →
      (get_sensor_parameter_name api rows cache s).2.2 +
        (get_sensor_parameter_name api rows
          (get_sensor_parameter_name api rows cache s).2.1 s).2.2 ≤ 1) ∧
    (sensorsFind rows s = none → cacheGet cache s = none →
      (api s = .err ∨ api s = .ok none ∨ api s = .ok (some "")) →
      (get_sensor_parameter_name api rows cache s).1 = "unknown" ∧
      cacheGet (get_sensor_parameter_name api rows cache s).2.1 s =
        some "unknown") ∧
    (∀ c : Cache, cacheGet c s = some "unknown" →
      get_sensor_parameter_name api rows c s = ("unknown", c, 0)) := by
  refine ⟨?_, ?_, ?_, ?_, ?_⟩
  · intro v hhit
    exact resolver_cache_hit api rows cache s v hhit
  · intro row p hmiss hfind hpn hp
    unfold get_sensor_parameter_name
    rw [hmiss]
    have hpb : (p == "") = false := by
      simpa using hp
    simp only [hfind, hpn, hpb, Bool.false_eq_true, if_false]
  · intro hfind
    cases hhit : cacheGet cache s with
    | some v =>
      have h1 := resolver_cache_hit api rows cache s v hhit
      simp only [h1]
      have h2 := resolver_cache_hit api rows cache s v hhit
      simp [h2]
    | none =>
      have h1 := resolver_no_row api rows cache s hhit hfind
      have hcache := resolver_caches_self api rows cache s hhit
      have h2 := resolver_cache_hit api rows
        (get_sensor_parameter_name api rows cache s).2.1 s
        (get_sensor_parameter_name api rows cache s).1 hcache
      rw [h2]
      simp only [h1, (apiLookup_caches api cache s).2]
      omega
  · intro hfind hmiss hapi
    have h1 := resolver_no_row api rows cache s hmiss hfind
    rw [h1, apiLookup_unknown api cache s hapi]
    exact ⟨rfl, cacheGet_cachePut cache s "unknown"⟩
  · intro c hhit
    exact resolver_cache_hit api rows c s "unknown" hhit

/-- An API stub for witnesses whose every fetch raises. -/
def exampleApiErr : Int → SensorDetailResp := fun _ => .err

/-- Witness for C3: a sensor with no cache and no stored row against an API
that always fails — the sentinel is returned and cached, and two consecutive
calls invoke the API at most once. -/
theorem C3_resolver_tiering_and_caching_witness :
    (get_sensor_parameter_name exampleApiErr [] [] 7).1 = "unknown" ∧
    cacheGet (get_sensor_parameter_name exampleApiErr [] [] 7).2.1 7 =
      some "unknown" ∧
    (get_sensor_parameter_name exampleApiErr [] [] 7).2.2 +
      (get_sensor_parameter_name exampleApiErr []
        (get_sensor_parameter_name exampleApiErr [] [] 7).2.1 7).2.2 ≤ 1 := by
  have h := C3_resolver_tiering_and_caching exampleApiErr [] [] 7
  have h4 := h.2.2.2.1 rfl rfl (Or.inl rfl)
  exact ⟨h4.1, h4.2, h.2.2.1 rfl⟩

/-! ## Claim C2 -/

/-- A concrete well-formed /latest result. -/
def exampleLatest : LatestResult :=
  { sensorsId := some 7, datetime_utc := .str "2024-01-01T00:00:00Z"
    value := some 18, coordinates := none, rawRepr := "raw" }

/-- A concrete malformed /latest result: no sensor id. -/
def exampleBadLatest : LatestResult :=
  { sensorsId := none, datetime_utc := .str "2024-01-01T00:00:00Z"
    value := some 3, coordinates := none, rawRepr := "rawbad" }

/-- A fault oracle under which no insert raises. -/
def noInsertFail : Nat → Bool := fun _ => false

/-- C2 (amended): given a fetched batch of N latest results of which M are
malformed (missing or falsy sensor id, or a caught insert exception),
refresh_latest_for_location stores exactly N − M measurements, logs a
saved-count of N − M against a fetched-count of N, and returns normally — but
its Python return value is None on every path, not the saved count. -/
theorem C2_refresh_saved_count (parse : String → Option Time)
    (api : Int → SensorDetailResp) (rows : List SensorRow)
    (insertRaises : Nat → Bool) (results : List LatestResult)
    (location_id : Int) (db : List Measurement) (cache : Cache) :
    (refresh_latest_for_location parse api rows insertRaises (.ok results)
        location_id db cache).saved +
      countMalformed insertRaises 0 results = results.length ∧
    (refresh_latest_for_location parse api rows insertRaises (.ok results)
        location_id db cache).fetched = results.length ∧
    (refresh_latest_for_location parse api rows insertRaises (.ok results)
        location_id db cache).ret = none := by
  rcases results with _ | ⟨r, rest⟩
  · simp [refresh_latest_for_location, countMalformed]
  · have hne : ((r :: rest : List LatestResult).isEmpty) = false := rfl
    unfold refresh_latest_for_location
    simp only [hne, Bool.false_eq_true, if_false]
    exact ⟨refreshLoop_saved parse api rows location_id insertRaises
      (r :: rest) 0 db cache, by trivial, by trivial⟩

/-- Witness for C2 at a two-element batch with one malformed result. -/
theorem C2_refresh_saved_count_witness :
    (refresh_latest_for_location exampleParse exampleApiErr [] noInsertFail
        (.ok [exampleLatest, exampleBadLatest]) 42 [] []).saved +
      countMalformed noInsertFail 0 [exampleLatest, exampleBadLatest] = 2 ∧
    (refresh_latest_for_location exampleParse exampleApiErr [] noInsertFail
        (.ok [exampleLatest, exampleBadLatest]) 42 [] []).ret = none := by
  have h := C2_refresh_saved_count exampleParse exampleApiErr []
    noInsertFail [exampleLatest, exampleBadLatest] 42 [] []
  exact ⟨h.1, h.2.2⟩

/-- Counterexample to C2 as stated: at a concrete batch in which one
measurement is saved, the function's return value is None, not the count. -/
theorem C2_counterexample :
    (refresh_latest_for_location exampleParse exampleApiErr [] noInsertFail
        (.ok [exampleLatest]) 42 [] []).saved = 1 ∧
    (refresh_latest_for_location exampleParse exampleApiErr [] noInsertFail
        (.ok [exampleLatest]) 42 [] []).ret ≠
      some (refresh_latest_for_location exampleParse exampleApiErr []
        noInsertFail (.ok [exampleLatest]) 42 [] []).saved := by
  decide

/-! ## Claim C6 -/

/-- C6: within one tick every listed location is attempted regardless of
earlier per-location failures (each is caught and logged), the processed
counter counts exactly the non-failing iterations, and a failure of the whole
tick body is swallowed so the tick returns normally and the next scheduled
tick still fires. -/
theorem C6_tick_failure_containment (locFails : Nat → Bool) :
    (∀ locs : List Int,
      (refresh_all_locations (.ok locs) locFails).attempted = locs ∧
      (refresh_all_locations (.ok locs) locFails).processed =
        countProcessed locFails 0 locs) ∧
    refresh_all_locations (.error ()) locFails =
      { attempted := [], processed := 0 } := by
  refine ⟨?_, rfl⟩
  intro locs
  rcases locs with _ | ⟨lid, rest⟩
  · simp [refresh_all_locations, countProcessed]
  · have h := tickLoop_spec locFails (lid :: rest) 0
    have hne : ((lid :: rest : List Int).isEmpty) = false := rfl
    unfold refresh_all_locations
    simp only [hne, Bool.false_eq_true, if_false]
    exact ⟨h.1, h.2⟩

/-- A fault oracle failing exactly the second location of a tick. -/
def exampleLocFails : Nat → Bool := fun i => i == 1

/-- Witness for C6: three locations with the middle one failing — all three
are attempted and two are processed. -/
theorem C6_tick_failure_containment_witness :
    (refresh_all_locations (.ok [10, 20, 30]) exampleLocFails).attempted =
      [10, 20, 30] ∧
    (refresh_all_locations (.ok [10, 20, 30]) exampleLocFails).processed = 2 := by
  have h := (C6_tick_failure_containment exampleLocFails).1 [10, 20, 30]
  refine ⟨h.1, ?_⟩
  rw [h.2]
  decide

/-! ## Claim C4 -/

/-- C4: the backfill driver halts once it receives an empty page and returns a
total-saved count equal to the sum of the per-page saved counts; in particular,
an empty page 1 yields zero saved, an untouched store, and a normal exit. -/
theorem C4_backfill_halts_and_sums (parse : String → Option Time)
    (fetch : Nat → FetchResp) (sensor_id location_id : Int)
    (saveFails : Nat → Nat → Bool) (db : List Measurement)
    (ps : List (List MRec)) (fuel : Nat) (hfuel : ps.length < fuel)
    (hserve : servesThen fetch (FetchResp.ok []) 1 ps) :
    (∃ db', backfill_historical_measurements parse fetch sensor_id location_id
        saveFails db fuel = some (sumSaved saveFails 1 ps, db')) ∧
    (ps = [] → backfill_historical_measurements parse fetch sensor_id
        location_id saveFails db fuel = some (0, db)) := by
  constructor
  · obtain ⟨db', h⟩ := backfillLoop_serves parse fetch sensor_id location_id
      saveFails (FetchResp.ok []) (Or.inr rfl) ps 1 0 db fuel hfuel hserve
    exact ⟨db', by simpa [backfill_historical_measurements] using h⟩
  · rintro rfl
    rcases fuel with _ | fuel
    · simp at hfuel
    · have hfp : fetch 1 = .ok [] := hserve
      simp [backfill_historical_measurements, backfillLoop, hfp]

/-- A concrete transformed measurement record. -/
def exampleMRec : MRec :=
  { sensor_id := 7, location_id := some 42
    timestamp := .str "2024-01-01T00:00:00Z", value := some 18
    parameter_name := some "pm25", coordinates := none, rawRepr := "raw" }

/-- An upstream serving one nonempty page and then an empty page. -/
def examplePages : Nat → FetchResp :=
  fun page => if page = 1 then .ok [exampleMRec] else .ok []

/-- A fault oracle under which no backfill save raises. -/
def noSaveFail : Nat → Nat → Bool := fun _ _ => false

/-- Witness for C4: one page of one record followed by an empty page — the
driver halts with total 1. -/
theorem C4_backfill_halts_and_sums_witness :
    ∃ db', backfill_historical_measurements exampleParse examplePages 7 42
      noSaveFail [] 2 = some (1, db') := by
  obtain ⟨db', hdb⟩ := (C4_backfill_halts_and_sums exampleParse examplePages
    7 42 noSaveFail [] [[exampleMRec]] 2 (by decide)
    (by simp [servesThen, examplePages])).1
  refine ⟨db', ?_⟩
  rw [hdb]
  rfl

/-! ## Claim C7 -/

/-- C7: an unrecoverable fetch error during a sensor's backfill aborts only
that sensor's paging: the driver catches it, stops, and returns — as a normal
value, not an exception — the total saved before the failure. -/
theorem C7_backfill_error_returns_total (parse : String → Option Time)
    (fetch : Nat → FetchResp) (sensor_id location_id : Int)
    (saveFails : Nat → Nat → Bool) (db : List Measurement)
    (ps : List (List MRec)) (fuel : Nat) (hfuel : ps.length < fuel)
    (hserve : servesThen fetch FetchResp.err 1 ps) :
    ∃ db', backfill_historical_measurements parse fetch sensor_id location_id
      saveFails db fuel = some (sumSaved saveFails 1 ps, db') := by
  obtain ⟨db', h⟩ := backfillLoop_serves parse fetch sensor_id location_id
    saveFails FetchResp.err (Or.inl rfl) ps 1 0 db fuel hfuel hserve
  exact ⟨db', by simpa [backfill_historical_measurements] using h⟩

/-- An upstream serving one nonempty page and then raising. -/
def examplePagesErr : Nat → FetchResp :=
  fun page => if page = 1 then .ok [exampleMRec] else .err

/-- Witness for C7: after one good page the fetch raises — the driver still
returns the total 1 saved so far. -/
theorem C7_backfill_error_returns_total_witness :
    ∃ db', backfill_historical_measurements exampleParse examplePagesErr 7 42
      noSaveFail [] 2 = some (1, db') := by
  obtain ⟨db', hdb⟩ := C7_backfill_error_returns_total exampleParse
    examplePagesErr 7 42 noSaveFail [] [[exampleMRec]] 2 (by decide)
    (by simp [servesThen, examplePagesErr])
  refine ⟨db', ?_⟩
  rw [hdb]
  rfl

/-! ## Claim C5 -/

/-- A concrete raw /latest result with every required field present. -/
def exampleLatestRaw : LatestRaw :=
  { datetime_utc := some "2024-01-01T00:00:00Z", value := some 18
    sensorsId := some 7, locationsId := some 42, coordinates := none }

/-- C5 (amended): openqq.fetch_location_latest applies a bounded positive
timeout, raises a distinguishable error on transport failure or non-success
status, and returns an empty list — a normal value distinct from any raised
error — for an empty result set; but
services/openaq.get_location_latest_measurements, though it also passes a
bounded timeout, swallows every error into the same empty list that a
genuinely empty result produces. -/
theorem C5_error_signalling (st : Nat) (rs : List LatestResult)
    (rs2 : List LatestRaw) :
    0 < fetch_location_latest_timeout ∧
    0 < get_location_latest_measurements_timeout ∧
    fetch_location_latest .transportError = .error .transport ∧
    (400 ≤ st → fetch_location_latest (.response st rs) =
      .error (.httpStatus st)) ∧
    (st < 400 → fetch_location_latest (.response st rs) = .ok rs) ∧
    (400 ≤ st → get_location_latest_measurements (.response st rs2) = []) ∧
    get_location_latest_measurements .transportError = [] := by
  refine ⟨by decide, by decide, rfl, ?_, ?_, ?_, rfl⟩
  · intro h
    simp [fetch_location_latest, raise_for_status, h]
  · intro h
    simp [fetch_location_latest, raise_for_status, Nat.not_le.mpr h]
  · intro h
    simp [get_location_latest_measurements, raise_for_status, h]

/-- Witness for C5: a 500 response raises through the openqq client, a 200
response returns its results, and the openaq wrapper maps the 500 response to
the empty list. -/
theorem C5_error_signalling_witness :
    fetch_location_latest (.response 500 []) = .error (.httpStatus 500) ∧
    fetch_location_latest (.response 200 [exampleLatest]) =
      .ok [exampleLatest] ∧
    get_location_latest_measurements (.response 500 [exampleLatestRaw]) = [] := by
  have h := C5_error_signalling 500 [] [exampleLatestRaw]
  have h2 := C5_error_signalling 200 [exampleLatest] []
  exact ⟨h.2.2.2.1 (by decide), h2.2.2.2.2.1 (by decide),
    h.2.2.2.2.2.1 (by decide)⟩

/-- Counterexample to C5 as stated: get_location_latest_measurements maps a
500-status upstream failure with a nonempty payload and a genuinely empty
200-status result to the same empty list, raising nothing, so its callers
cannot tell an upstream failure from an empty result. -/
theorem C5_counterexample :
    get_location_latest_measurements (.response 500 [exampleLatestRaw]) =
      get_location_latest_measurements (.response 200 []) ∧
    get_location_latest_measurements (.response 500 [exampleLatestRaw]) = [] := by
  exact ⟨rfl, rfl⟩

/-! ## Claim C10 -/

/-- A raw API measurements result whose parameter field is not a dict. -/
def exampleApiMeasNotDict : ApiMeasResult :=
  { period_datetimeFrom := .str "2024-01-01T00:00:00Z", period_utc := .missing
    location_dict := some (some 42), location_id_alt := none, value := some 18
    parameter := .notDict, coordinates := none, rawRepr := "raw" }

/-- A raw API measurements result whose parameter dict lacks a name. -/
def exampleApiMeasNoName : ApiMeasResult :=
  { period_datetimeFrom := .str "2024-01-01T00:00:00Z", period_utc := .missing
    location_dict := some (some 42), location_id_alt := none, value := some 18
    parameter := .dict none, coordinates := none, rawRepr := "raw" }

/-- C10 (amended): every measurement ingested through
backfill_measurements_for_sensor is stored with a NULL parameter_name (the
dict it builds carries no parameter_name key); the scheduler refresh path
always stores a non-null name; and the historical backfill path stores exactly
the fetched parameter name — "pm25" when the result's parameter field is not a
dict, but NULL when the parameter dict lacks a name. -/
theorem C10_parameter_name_by_path (parse : String → Option Time) :
    (∀ (rec : MRec) (db : List Measurement),
      (insert_measurement parse db
        (backfillUtilsMeasurementIn rec)).2.parameter_name = none) ∧
    (∀ (fetch : Nat → Except ClientError (List MRec)) (pages : Nat)
        (db db' : List Measurement),
      backfill_measurements_for_sensor parse fetch pages db = .ok db' →
      ∀ r ∈ db', r ∈ db ∨ r.parameter_name = none) ∧
    (∀ (api : Int → SensorDetailResp) (rows : List SensorRow)
        (location_id : Int) (ir : Nat → Bool) (results : List LatestResult)
        (i : Nat) (db : List Measurement) (cache : Cache) (r : Measurement),
      r ∈ (refreshLoop parse api rows location_id ir results i db cache).2.1 →
      r ∈ db ∨ ∃ s, r.parameter_name = some s) ∧
    (∀ (sid lid : Int) (m : MRec) (db : List Measurement),
      (insert_measurement parse db
        (backfillMeasurementIn sid lid m)).2.parameter_name =
        m.parameter_name) ∧
    (∀ (sid : Int) (r : ApiMeasResult), r.parameter = .notDict →
      (transformMeasResult sid r).parameter_name = some "pm25") := by
  refine ⟨?_, ?_, ?_, ?_, ?_⟩
  · intro rec db
    rfl
  · intro fetch pages db db' h r hr
    exact mem_backfillUtilsLoop parse fetch pages 1 db db' h r hr
  · exact mem_refreshLoop_db parse
  · intro sid lid m db
    rfl
  · intro sid r h
    simp [transformMeasResult, h]

/-- Witness for C10: the utils path stores NULL for a concrete record, and the
transform of a non-dict parameter field yields "pm25". -/
theorem C10_parameter_name_by_path_witness :
    (insert_measurement exampleParse []
      (backfillUtilsMeasurementIn exampleMRec)).2.parameter_name = none ∧
    (transformMeasResult 7 exampleApiMeasNotDict).parameter_name =
      some "pm25" := by
  have h := C10_parameter_name_by_path exampleParse
  exact ⟨h.1 exampleMRec [], h.2.2.2.2 7 exampleApiMeasNotDict rfl⟩

/-- Counterexample to C10 as stated: fed the transform of a concrete result
whose parameter dict lacks a name, the historical backfill path stores a NULL
parameter name, so that path does not always store a non-null name. -/
theorem C10_counterexample :
    (insert_measurement exampleParse []
        (backfillMeasurementIn 7 42
          (transformMeasResult 7 exampleApiMeasNoName))).2.parameter_name =
      none := rfl

end AQ
